import Mathlib

/-!
Shallow embedding of the `search_movies` tool of movie-mcp-server
(`src/index.ts`, mirrored by the Deno edge-function variant).

Modelling conventions:
* JS strings are Lean `String`s; `undefined`/`null` optional fields are
  `Option` (`none` = absent or null).
* JS numbers are modelled as rationals `ℚ`; `Number.prototype.toFixed(1)`
  followed by `Number(...)` is modelled as round-half-up to one decimal,
  matching the ECMAScript tie-break ("pick the larger n").
* JS string falsiness (`!s` true exactly for the empty string, null and
  undefined) is `jsFalsyStr`.
* `String.prototype.split("-")` is `splitOnChar '-'` on the character list.
* `String.prototype.trim()` is `jsTrim` (drop whitespace from both ends).
* The single `fetch` and the subsequent body reads are abstracted by a
  `FetchResult` argument: the promise either rejects (`thrown`, carrying
  the `Error` message when the thrown value is an `Error`) or resolves to
  a response with an HTTP status and a body.  The body is observed in two
  ways, matching the two code paths: `parse` is the combined result of
  `response.json()` + `tmdbSearchResponseSchema.parse` (an `Except`
  carrying the exception message on failure), and `errorParse` is the
  result of `response.json()` on the non-ok path (failed, or parsed with
  an optional string-typed `status_message` field).
* The handler returns its result together with the number of outbound
  network calls it performed.
-/

def TMDB_SEARCH_URL : String := "https://api.themoviedb.org/3/search/movie"

def TMDB_POSTER_BASE_URL : String := "https://image.tmdb.org/t/p/w500"

/-- One entry of the upstream `results` array, as validated by
`tmdbSearchResponseSchema`: `id` and `title` required, the other three
fields nullable and optional. -/
structure TmdbMovie where
  id : Int
  title : String
  release_date : Option String
  vote_average : Option ℚ
  poster_path : Option String
deriving DecidableEq, Repr

/-- The validated upstream response shape `{ results: [...] }`. -/
structure TmdbSearchResponse where
  results : List TmdbMovie
deriving DecidableEq, Repr

/-- The display-ready record produced for each movie (`MovieCard`). -/
structure MovieCard where
  id : Int
  title : String
  releaseYear : String
  rating : ℚ
  posterUrl : Option String
deriving DecidableEq, Repr

/-- JS falsiness of an optional string: `!s` is true exactly when `s` is
absent, null, or the empty string. -/
def jsFalsyStr : Option String → Bool
  | none => true
  | some s => s == ""

/-- JS `String.prototype.split` with a one-character separator, on the
character list: `"a-b".split("-") = ["a","b"]`, `"-b" ↦ ["","b"]`,
`"" ↦ [""]`. -/
def splitOnChar (c : Char) : List Char → List (List Char)
  | [] => [[]]
  | x :: xs =>
    let rest := splitOnChar c xs
    if x = c then [] :: rest
    else (x :: rest.headD []) :: rest.tail

/-- `formatReleaseYear` from `src/index.ts`:
`if (!releaseDate) return "N/A"; const [year] = releaseDate.split("-");
return year || "N/A";` -/
def formatReleaseYear (releaseDate : Option String) : String :=
  if jsFalsyStr releaseDate then "N/A"
  else
    let year := String.mk ((splitOnChar '-' (releaseDate.getD "").data).headD [])
    if year == "" then "N/A" else year

/-- `buildPosterUrl` from `src/index.ts`:
`if (!posterPath) return null; return `${TMDB_POSTER_BASE_URL}${posterPath}`;` -/
def buildPosterUrl (posterPath : Option String) : Option String :=
  if jsFalsyStr posterPath then none
  else some (TMDB_POSTER_BASE_URL ++ posterPath.getD "")

/-- `Number(x.toFixed(1))`: round to one decimal place, half away from
zero towards the larger value, as ECMAScript `toFixed` specifies. -/
def jsToFixed1 (x : ℚ) : ℚ := (round (x * 10) : ℤ) / 10

/-- `mapTmdbMovieToCard` from `src/index.ts`. -/
def mapTmdbMovieToCard (movie : TmdbMovie) : MovieCard :=
  { id := movie.id
    title := movie.title
    releaseYear := formatReleaseYear movie.release_date
    rating := jsToFixed1 (movie.vote_average.getD 0)
    posterUrl := buildPosterUrl movie.poster_path }

/-- JS whitespace, as far as `trim` is concerned (ASCII part). -/
def jsWs (c : Char) : Bool :=
  c == ' ' || c == '\t' || c == '\n' || c == '\r' || c == '\x0b' || c == '\x0c'

/-- Drop trailing `jsWs` characters. -/
def jsTrimRight (l : List Char) : List Char :=
  (l.reverse.dropWhile jsWs).reverse

/-- JS `String.prototype.trim()`. -/
def jsTrim (s : String) : String :=
  String.mk (jsTrimRight (s.data.dropWhile jsWs))

/-- Outcome of `response.json()` on the non-ok path: the read/parse can
throw (swallowed by the inner `catch`), or produce a body whose
`status_message` field may be a string. -/
inductive ErrorBodyParse
  | failed
  | parsed (statusMessage : Option String)
deriving DecidableEq, Repr

/-- The two observations the handler can make of a response body. -/
structure ResponseBody where
  parse : Except String TmdbSearchResponse
  errorParse : ErrorBodyParse
deriving Repr

/-- Behaviour of the single outbound `fetch`. -/
inductive FetchResult
  | thrown (message : Option String)
  | response (status : Nat) (body : ResponseBody)
deriving Repr

/-- The structured payload handed to the widget
(`searchMoviesWidgetPropsSchema`): query, movies, optional error. -/
structure SearchMoviesWidgetProps where
  query : String
  movies : List MovieCard
  error : Option String := none
deriving DecidableEq, Repr

/-- The dual-channel tool result: structured props plus the model-facing
text message. -/
structure HandlerResult where
  props : SearchMoviesWidgetProps
  message : String
deriving DecidableEq, Repr

/-- `buildSearchMoviesWidgetResponse` from `src/index.ts`. -/
def buildSearchMoviesWidgetResponse (props : SearchMoviesWidgetProps)
    (modelMessage : String) : HandlerResult :=
  { props := props, message := modelMessage }

/-- `searchMoviesHandler` from `src/index.ts`, with the network
abstracted by `net`.  The second component counts outbound calls. -/
def searchMoviesHandler (apiKey : Option String) (query : String)
    (net : FetchResult) : HandlerResult × Nat :=
  if jsFalsyStr apiKey then
    (buildSearchMoviesWidgetResponse
      { query := query, movies := [],
        error := some "TMDB API key is missing. Set TMDB_API_KEY and try again." }
      "Movie search failed because the TMDB API key is not configured.", 0)
  else
    match net with
    | .thrown errMessage =>
      let message := errMessage.getD "Unknown network error"
      (buildSearchMoviesWidgetResponse
        { query := query, movies := [],
          error := some ("Unable to fetch movie results right now: " ++ message) }
        "Movie search failed due to a network or parsing error.", 1)
    | .response status body =>
      if 200 ≤ status ∧ status < 300 then
        match body.parse with
        | .error errMessage =>
          (buildSearchMoviesWidgetResponse
            { query := query, movies := [],
              error := some ("Unable to fetch movie results right now: " ++ errMessage) }
            "Movie search failed due to a network or parsing error.", 1)
        | .ok payload =>
          let movies := (payload.results.take 3).map mapTmdbMovieToCard
          if movies.length = 0 then
            (buildSearchMoviesWidgetResponse
              { query := query, movies := [],
                error := some "No movies found for this query." }
              ("No movies found for \"" ++ query ++ "\"."), 1)
          else
            (buildSearchMoviesWidgetResponse { query := query, movies := movies }
              ("Found " ++ toString movies.length ++ " movie result(s) for \"" ++
                query ++ "\"."), 1)
      else
        let details : String :=
          match body.errorParse with
          | .failed => ""
          | .parsed none => ""
          | .parsed (some m) => if m == "" then "" else " " ++ m
        (buildSearchMoviesWidgetResponse
          { query := query, movies := [],
            error := some (jsTrim
              ("TMDB request failed with status " ++ toString status ++ "." ++ details)) }
          "Movie search failed due to an external API error.", 1)

/-- Decidable substring occurrence on character lists. -/
def hasSubstring (pat : List Char) : List Char → Bool
  | [] => pat.isEmpty
  | c :: rest => pat.isPrefixOf (c :: rest) || hasSubstring pat rest

/-! ## Spec-side definitions and sample data -/

/-- The release-year mapping as the spec words it: the segment of the
release date before the first `-`, with `"N/A"` when the date is
absent/empty or that segment is empty.  Used to compare
`formatReleaseYear` (from the source) against the spec sentence. -/
def releaseYearOfSpec (releaseDate : Option String) : String :=
  match releaseDate with
  | none => "N/A"
  | some s =>
    let seg := s.data.takeWhile (fun c => c != '-')
    if seg.isEmpty then "N/A" else String.mk seg

def sampleMovieA : TmdbMovie :=
  ⟨550, "Fight Club", some "1999-10-15", some (84/10), some "/fight.jpg"⟩

def sampleMovieB : TmdbMovie :=
  ⟨603, "The Matrix", some "1999-03-31", some (7666/1000), some "/matrix.jpg"⟩

def sampleMovieC : TmdbMovie :=
  ⟨27205, "Inception", some "2010-07-15", some (83/10), none⟩

def sampleMovieD : TmdbMovie := ⟨604, "Reloaded", none, none, none⟩

/-! ## Helper lemmas -/

lemma splitOnChar_headD (c : Char) (l : List Char) :
    (splitOnChar c l).headD [] = l.takeWhile (fun x => x != c) := by
  induction l with
  | nil => rfl
  | cons x xs ih =>
    by_cases hx : x = c
    · simp [splitOnChar, hx, List.takeWhile_cons]
    · have hb : (x != c) = true := by simp [hx]
      simp only [splitOnChar, if_neg hx, List.headD_cons, List.takeWhile_cons, hb, if_true]
      exact congrArg (x :: ·) ih

lemma hasSubstring_of_prefix_list (pat l : List Char) (h : pat.isPrefixOf l = true) :
    hasSubstring pat l = true := by
  cases l with
  | nil =>
    cases pat with
    | nil => rfl
    | cons p ps => simp [List.isPrefixOf] at h
  | cons c rest => simp [hasSubstring, h]

lemma hasSubstring_append_middle (pat a b : List Char) :
    hasSubstring pat (a ++ (pat ++ b)) = true := by
  induction a with
  | nil =>
    simp only [List.nil_append]
    exact hasSubstring_of_prefix_list _ _
      (by rw [ List.isPrefixOf_iff_prefix]; exact List.prefix_append pat b)
  | cons x xs ih =>
    simp only [List.cons_append]
    simp [hasSubstring, ih]

lemma jsTrimRight_last_not_ws (l : List Char) (c : Char) (hc : jsWs c = false) :
    jsTrimRight (l ++ [c]) = l ++ [c] := by
  unfold jsTrimRight
  rw [List.reverse_append]
  simp [List.dropWhile_cons, hc]

lemma jsTrimRight_shape (x d : List Char) (c : Char) (hc : jsWs c = false) :
    ∃ w, jsTrimRight (x ++ c :: d) = x ++ c :: w := by
  unfold jsTrimRight
  have hx : x ++ c :: d = (x ++ [c]) ++ d := by simp
  rw [hx, List.reverse_append, List.reverse_append, List.dropWhile_append]
  by_cases hd : (d.reverse.dropWhile jsWs).isEmpty
  · refine ⟨[], ?_⟩
    rw [if_pos hd]
    simp [List.dropWhile_cons, hc]
  · refine ⟨(d.reverse.dropWhile jsWs).reverse, ?_⟩
    rw [if_neg hd]
    simp [List.dropWhile_cons, hc]

lemma dropWhile_tmdb_status_line (r : List Char) :
    ("TMDB request failed with status ".data ++ r).dropWhile jsWs =
      "TMDB request failed with status ".data ++ r := by
  rw [List.dropWhile_append]
  have h1 : "TMDB request failed with status ".data.dropWhile jsWs =
      "TMDB request failed with status ".data := by decide
  have h2 : ("TMDB request failed with status ".data).isEmpty = false := by decide
  rw [h1, h2]
  simp

lemma tmdb_fail_error_shape (status : Nat) (details : String) :
    ∃ w : List Char,
      (jsTrim ("TMDB request failed with status " ++ toString status ++ "." ++ details)).data =
        "TMDB request failed with status ".data ++ ((toString status).data ++ '.' :: w) := by
  unfold jsTrim
  have hdot : ".".data = ['.'] := by decide
  have hdata : ("TMDB request failed with status " ++ toString status ++ "." ++ details).data =
      "TMDB request failed with status ".data ++
        ((toString status).data ++ ('.' :: details.data)) := by
    simp [String.data_append, hdot]
  rw [hdata, dropWhile_tmdb_status_line]
  have hassoc : "TMDB request failed with status ".data ++
        ((toString status).data ++ ('.' :: details.data)) =
      ("TMDB request failed with status ".data ++ (toString status).data) ++
        ('.' :: details.data) := (List.append_assoc _ _ _).symm
  rw [hassoc]
  obtain ⟨w, hw⟩ := jsTrimRight_shape
    ("TMDB request failed with status ".data ++ (toString status).data)
    details.data '.' (by decide)
  refine ⟨w, ?_⟩
  rw [hw]
  simp [List.append_assoc]

lemma tmdb_fail_error_exact (status : Nat) :
    jsTrim ("TMDB request failed with status " ++ toString status ++ ".") =
      "TMDB request failed with status " ++ toString status ++ "." := by
  apply String.ext
  unfold jsTrim
  have hdot : ".".data = ['.'] := by decide
  have hdata : ("TMDB request failed with status " ++ toString status ++ ".").data =
      "TMDB request failed with status ".data ++ ((toString status).data ++ ['.']) := by
    simp [String.data_append, hdot]
  rw [hdata, dropWhile_tmdb_status_line]
  have hassoc : "TMDB request failed with status ".data ++ ((toString status).data ++ ['.']) =
      ("TMDB request failed with status ".data ++ (toString status).data) ++ ['.'] :=
    (List.append_assoc _ _ _).symm
  rw [hassoc, jsTrimRight_last_not_ws _ '.' (by decide)]

/-! ## Handler branch lemmas -/

lemma handler_missing_key (apiKey : Option String) (query : String) (net : FetchResult)
    (hk : jsFalsyStr apiKey = true) :
    searchMoviesHandler apiKey query net =
      (⟨⟨query, [],
          some "TMDB API key is missing. Set TMDB_API_KEY and try again."⟩,
        "Movie search failed because the TMDB API key is not configured."⟩, 0) := by
  simp [searchMoviesHandler, hk, buildSearchMoviesWidgetResponse]

lemma handler_thrown (apiKey : Option String) (query : String) (msg : Option String)
    (hk : jsFalsyStr apiKey = false) :
    searchMoviesHandler apiKey query (.thrown msg) =
      (⟨⟨query, [],
          some ("Unable to fetch movie results right now: " ++
            msg.getD "Unknown network error")⟩,
        "Movie search failed due to a network or parsing error."⟩, 1) := by
  simp [searchMoviesHandler, hk, buildSearchMoviesWidgetResponse]

lemma handler_parse_error (apiKey : Option String) (query : String) (status : Nat)
    (body : ResponseBody) (em : String)
    (hk : jsFalsyStr apiKey = false) (hs : 200 ≤ status ∧ status < 300)
    (hp : body.parse = .error em) :
    searchMoviesHandler apiKey query (.response status body) =
      (⟨⟨query, [], some ("Unable to fetch movie results right now: " ++ em)⟩,
        "Movie search failed due to a network or parsing error."⟩, 1) := by
  simp [searchMoviesHandler, hk, hs.1, hs.2, hp, buildSearchMoviesWidgetResponse]

lemma handler_ok_empty (apiKey : Option String) (query : String) (status : Nat)
    (body : ResponseBody) (payload : TmdbSearchResponse)
    (hk : jsFalsyStr apiKey = false) (hs : 200 ≤ status ∧ status < 300)
    (hp : body.parse = .ok payload) (hres : payload.results = []) :
    searchMoviesHandler apiKey query (.response status body) =
      (⟨⟨query, [], some "No movies found for this query."⟩,
        "No movies found for \"" ++ query ++ "\"."⟩, 1) := by
  simp [searchMoviesHandler, hk, hs.1, hs.2, hp, hres, buildSearchMoviesWidgetResponse]

lemma handler_ok_results (apiKey : Option String) (query : String) (status : Nat)
    (body : ResponseBody) (payload : TmdbSearchResponse)
    (hk : jsFalsyStr apiKey = false) (hs : 200 ≤ status ∧ status < 300)
    (hp : body.parse = .ok payload) (hres : payload.results ≠ []) :
    searchMoviesHandler apiKey query (.response status body) =
      (⟨⟨query, (payload.results.take 3).map mapTmdbMovieToCard, none⟩,
        "Found " ++ toString ((payload.results.take 3).map mapTmdbMovieToCard).length ++
          " movie result(s) for \"" ++ query ++ "\"."⟩, 1) := by
  have hl : payload.results.length ≠ 0 := fun h => hres (List.length_eq_zero.mp h)
  have hlen : ((payload.results.take 3).map mapTmdbMovieToCard).length ≠ 0 := by
    rw [List.length_map, List.length_take]
    omega
  simp [searchMoviesHandler, hk, hs.1, hs.2, hp, hlen, hres, buildSearchMoviesWidgetResponse]

lemma handler_http_fail (apiKey : Option String) (query : String) (status : Nat)
    (body : ResponseBody)
    (hk : jsFalsyStr apiKey = false) (hs : ¬(200 ≤ status ∧ status < 300)) :
    searchMoviesHandler apiKey query (.response status body) =
      (⟨⟨query, [],
          some (jsTrim ("TMDB request failed with status " ++ toString status ++ "." ++
            (match body.errorParse with
             | .failed => ""
             | .parsed none => ""
             | .parsed (some m) => if m == "" then "" else " " ++ m)))⟩,
        "Movie search failed due to an external API error."⟩, 1) := by
  simp [searchMoviesHandler, hk, hs, buildSearchMoviesWidgetResponse]

/-! ## Claims -/

/-- C7: for every RawResult, the mapped releaseYear is the substring of
release_date before the first `-` (e.g. "1999-03-31" maps to "1999" and
"2020" with no dash maps to "2020"), and is "N/A" when release_date is
absent, null, or empty, or when the segment before the first `-` is
empty. -/
theorem claim7_release_year :
    (∀ rd : Option String, formatReleaseYear rd = releaseYearOfSpec rd) ∧
    formatReleaseYear (some "1999-03-31") = "1999" ∧
    formatReleaseYear (some "2020") = "2020" ∧
    formatReleaseYear none = "N/A" ∧
    formatReleaseYear (some "") = "N/A" ∧
    formatReleaseYear (some "-2020") = "N/A" := by
  refine ⟨?_, by decide, by decide, by decide, by decide, by decide⟩
  intro rd
  cases rd with
  | none => rfl
  | some s =>
    by_cases hs0 : s = ""
    · subst hs0; decide
    · have hfalsy : jsFalsyStr (some s) = false := by
        simp [jsFalsyStr, hs0]
      simp only [formatReleaseYear, releaseYearOfSpec, hfalsy, Bool.false_eq_true, if_false,
        Option.getD_some]
      rw [splitOnChar_headD]
      generalize s.data.takeWhile (fun c => c != '-') = seg
      cases seg with
      | nil => decide
      | cons c t => simp [beq_iff_eq, String.ext_iff]

/-- C8: for every RawResult, the mapped rating is the upstream
vote_average rounded to one decimal place (7.666 maps to 7.7), and is
0.0 when vote_average is absent or null. -/
theorem claim8_rating :
    (∀ m : TmdbMovie, m.vote_average = none → (mapTmdbMovieToCard m).rating = 0) ∧
    (∀ (m : TmdbMovie) (q : ℚ), m.vote_average = some q →
      (mapTmdbMovieToCard m).rating = ((round (q * 10) : ℤ) : ℚ) / 10) ∧
    (mapTmdbMovieToCard sampleMovieB).rating = 77/10 := by
  refine ⟨?_, ?_, ?_⟩
  · intro m h
    simp [mapTmdbMovieToCard, jsToFixed1, h]
  · intro m q h
    simp [mapTmdbMovieToCard, jsToFixed1, h]
  · norm_num [mapTmdbMovieToCard, sampleMovieB, jsToFixed1, round_eq]

/-- C8 witness: the rating mapping at a movie with no vote and at one
with vote_average 7.666. -/
theorem claim8_witness :
    (mapTmdbMovieToCard sampleMovieD).rating = 0 ∧
    (mapTmdbMovieToCard sampleMovieB).rating = ((round (((7666:ℚ)/1000) * 10) : ℤ) : ℚ) / 10 :=
  ⟨claim8_rating.1 sampleMovieD rfl, claim8_rating.2.1 sampleMovieB (7666/1000) rfl⟩

/-- C9 counterexample: a present poster_path that is the empty string is
JS-falsy, so `buildPosterUrl` returns null rather than the base URL
concatenated with the (empty) path verbatim, contrary to the claim. -/
theorem claim9_counterexample :
    buildPosterUrl (some "") ≠ some (TMDB_POSTER_BASE_URL ++ "") := by
  decide

/-- C9 (amended): the mapped posterUrl is null when poster_path is
absent, null, or the empty string, and otherwise equals the fixed image
CDN base URL concatenated with the poster_path string verbatim. -/
theorem claim9_poster_url :
    buildPosterUrl none = none ∧
    buildPosterUrl (some "") = none ∧
    (∀ p : String, p ≠ "" → buildPosterUrl (some p) = some (TMDB_POSTER_BASE_URL ++ p)) ∧
    buildPosterUrl (some "/abc.jpg") = some "https://image.tmdb.org/t/p/w500/abc.jpg" := by
  refine ⟨rfl, by decide, ?_, by decide⟩
  intro p hp
  simp [buildPosterUrl, jsFalsyStr, hp]

/-- C9 witness: the poster URL built for a concrete non-empty path. -/
theorem claim9_witness :
    buildPosterUrl (some "/abc.jpg") = some (TMDB_POSTER_BASE_URL ++ "/abc.jpg") :=
  claim9_poster_url.2.2.1 "/abc.jpg" (by decide)

/-- C1: for every well-formed upstream response whose results array has
n entries, the outcome's movies list has length min(3, n) and its
entries are the mapped images of the first min(3, n) upstream entries in
upstream order. -/
theorem claim1_top3_mapping (apiKey : Option String) (query : String) (status : Nat)
    (body : ResponseBody) (payload : TmdbSearchResponse)
    (hk : jsFalsyStr apiKey = false) (hs : 200 ≤ status ∧ status < 300)
    (hp : body.parse = .ok payload) :
    (searchMoviesHandler apiKey query (.response status body)).1.props.movies.length =
        min 3 payload.results.length ∧
    ∀ i : ℕ, i < min 3 payload.results.length →
      (searchMoviesHandler apiKey query (.response status body)).1.props.movies[i]? =
        (payload.results[i]?).map mapTmdbMovieToCard := by
  by_cases hres : payload.results = []
  · rw [handler_ok_empty apiKey query status body payload hk hs hp hres]
    constructor
    · simp [hres]
    · intro i hi
      rw [hres] at hi
      simp at hi
  · rw [handler_ok_results apiKey query status body payload hk hs hp hres]
    constructor
    · simp [List.length_map, List.length_take]
    · intro i hi
      have hi3 : i < 3 := lt_of_lt_of_le hi (min_le_left _ _)
      simp [List.getElem?_map, List.getElem?_take_of_lt hi3]

/-- C1 witness: two results yield min(3,2) = 2 movies, the first being
the mapped first upstream entry. -/
theorem claim1_witness :
    (searchMoviesHandler (some "key") "matrix"
      (.response 200 ⟨.ok ⟨[sampleMovieA, sampleMovieB]⟩, .parsed none⟩)).1.props.movies.length =
        min 3 2 ∧
    (searchMoviesHandler (some "key") "matrix"
      (.response 200 ⟨.ok ⟨[sampleMovieA, sampleMovieB]⟩, .parsed none⟩)).1.props.movies[0]? =
        some (mapTmdbMovieToCard sampleMovieA) := by
  have h := claim1_top3_mapping (some "key") "matrix" 200
    ⟨.ok ⟨[sampleMovieA, sampleMovieB]⟩, .parsed none⟩ ⟨[sampleMovieA, sampleMovieB]⟩
    (by decide) (by norm_num) rfl
  exact ⟨h.1, (h.2 0 (by norm_num)).trans rfl⟩

/-- C2 counterexample: for the query "XYZ" with a well-formed empty
upstream result set, the outcome's error field is the fixed string
"No movies found for this query.", which does not contain the query
text "XYZ" — so the error field does not reference the exact query
text that was searched. -/
theorem claim2_counterexample :
    (searchMoviesHandler (some "key") "XYZ"
      (.response 200 ⟨.ok ⟨[]⟩, .parsed none⟩)).1.props.error =
        some "No movies found for this query." ∧
    hasSubstring "XYZ".data "No movies found for this query.".data = false := by
  constructor
  · rw [handler_ok_empty (some "key") "XYZ" 200 _ ⟨[]⟩ (by decide) (by norm_num) rfl rfl]
  · decide

/-- C2 (amended): with a well-formed empty upstream result set the
outcome has an empty movies list and an error field equal to the fixed
no-results message "No movies found for this query." (which does not
embed the query), while the accompanying text summary references the
exact query text that was searched. -/
theorem claim2_no_results (apiKey : Option String) (query : String) (status : Nat)
    (body : ResponseBody)
    (hk : jsFalsyStr apiKey = false) (hs : 200 ≤ status ∧ status < 300)
    (hp : body.parse = .ok ⟨[]⟩) :
    (searchMoviesHandler apiKey query (.response status body)).1.props =
      ⟨query, [], some "No movies found for this query."⟩ ∧
    (searchMoviesHandler apiKey query (.response status body)).1.message =
      "No movies found for \"" ++ query ++ "\"." := by
  rw [handler_ok_empty apiKey query status body ⟨[]⟩ hk hs hp rfl]
  exact ⟨rfl, rfl⟩

/-- C2 witness: the amended no-results behaviour at the concrete query
"Inception". -/
theorem claim2_witness :
    (searchMoviesHandler (some "key") "Inception"
      (.response 200 ⟨.ok ⟨[]⟩, .parsed none⟩)).1.props =
        ⟨"Inception", [], some "No movies found for this query."⟩ ∧
    (searchMoviesHandler (some "key") "Inception"
      (.response 200 ⟨.ok ⟨[]⟩, .parsed none⟩)).1.message =
        "No movies found for \"Inception\"." := by
  have h := claim2_no_results (some "key") "Inception" 200 ⟨.ok ⟨[]⟩, .parsed none⟩
    (by decide) (by norm_num) rfl
  exact ⟨h.1, h.2.trans (by decide)⟩

/-- C3: with no API key configured (a JS-falsy key: absent or empty) the
handler performs zero network calls and returns an empty movies list
together with an error text that mentions TMDB_API_KEY. -/
theorem claim3_missing_key (apiKey : Option String) (query : String) (net : FetchResult)
    (hk : jsFalsyStr apiKey = true) :
    (searchMoviesHandler apiKey query net).2 = 0 ∧
    (searchMoviesHandler apiKey query net).1.props.movies = [] ∧
    (searchMoviesHandler apiKey query net).1.props.error =
      some "TMDB API key is missing. Set TMDB_API_KEY and try again." ∧
    hasSubstring "TMDB_API_KEY".data
      "TMDB API key is missing. Set TMDB_API_KEY and try again.".data = true := by
  rw [handler_missing_key apiKey query net hk]
  exact ⟨rfl, rfl, rfl, by decide⟩

/-- C3 witness: missing key with an arbitrary network behaviour. -/
theorem claim3_witness :
    (searchMoviesHandler none "q" (.thrown none)).2 = 0 ∧
    (searchMoviesHandler none "q" (.thrown none)).1.props.movies = [] ∧
    (searchMoviesHandler none "q" (.thrown none)).1.props.error =
      some "TMDB API key is missing. Set TMDB_API_KEY and try again." ∧
    hasSubstring "TMDB_API_KEY".data
      "TMDB API key is missing. Set TMDB_API_KEY and try again.".data = true :=
  claim3_missing_key none "q" (.thrown none) rfl

/-- C4: for every non-2xx HTTP response, the outcome has an empty movies
list and an error message containing the numeric status code; a
provider-supplied (truthy) status_message string is appended when the
error body parses to one, and a failure to parse the error body is
swallowed, leaving the upstream-HTTP-failure classification and the
status-code message intact. -/
theorem claim4_http_failure (apiKey : Option String) (query : String) (status : Nat)
    (body : ResponseBody)
    (hk : jsFalsyStr apiKey = false) (hs : ¬(200 ≤ status ∧ status < 300)) :
    (searchMoviesHandler apiKey query (.response status body)).1.props.movies = [] ∧
    (searchMoviesHandler apiKey query (.response status body)).1.message =
      "Movie search failed due to an external API error." ∧
    (∃ e, (searchMoviesHandler apiKey query (.response status body)).1.props.error = some e ∧
      hasSubstring (toString status).data e.data = true) ∧
    (∀ m : String, body.errorParse = .parsed (some m) → m ≠ "" →
      (searchMoviesHandler apiKey query (.response status body)).1.props.error =
        some (jsTrim ("TMDB request failed with status " ++ toString status ++ "." ++
          (" " ++ m)))) ∧
    ((body.errorParse = .failed ∨ body.errorParse = .parsed none ∨
        body.errorParse = .parsed (some "")) →
      (searchMoviesHandler apiKey query (.response status body)).1.props.error =
        some ("TMDB request failed with status " ++ toString status ++ ".")) := by
  rw [handler_http_fail apiKey query status body hk hs]
  refine ⟨rfl, rfl, ?_, ?_, ?_⟩
  · refine ⟨jsTrim ("TMDB request failed with status " ++ toString status ++ "." ++
      (match body.errorParse with
       | ErrorBodyParse.failed => ""
       | ErrorBodyParse.parsed none => ""
       | ErrorBodyParse.parsed (some m) => if m == "" then "" else " " ++ m)), rfl, ?_⟩
    obtain ⟨w, hw⟩ := tmdb_fail_error_shape status
      (match body.errorParse with
       | ErrorBodyParse.failed => ""
       | ErrorBodyParse.parsed none => ""
       | ErrorBodyParse.parsed (some m) => if m == "" then "" else " " ++ m)
    rw [hw]
    exact hasSubstring_append_middle _ _ _
  · intro m hm hne
    have hb : (m == "") = false := by simp [hne]
    simp only [hm, hb, Bool.false_eq_true, if_false]
  · rintro (hc | hc | hc) <;> simp [hc, tmdb_fail_error_exact]

/-- C4 witness: a 401 response whose error body fails to parse yields
the bare status-code message. -/
theorem claim4_witness :
    (searchMoviesHandler (some "key") "q"
      (.response 401 ⟨.ok ⟨[]⟩, .failed⟩)).1.props.movies = [] ∧
    (searchMoviesHandler (some "key") "q"
      (.response 401 ⟨.ok ⟨[]⟩, .failed⟩)).1.props.error =
      some "TMDB request failed with status 401." := by
  have h := claim4_http_failure (some "key") "q" 401 ⟨.ok ⟨[]⟩, .failed⟩
    (by decide) (by norm_num)
  exact ⟨h.1, (h.2.2.2.2 (Or.inl rfl)).trans (by decide)⟩

/-- C5: every 2xx response with a malformed or non-conforming body, and
every network-level exception, is classified as a network/parse failure
(not an upstream HTTP failure): empty movies and an error message
containing the underlying error message, or the fixed "Unknown network
error" text when the thrown value carries no message. -/
theorem claim5_network_parse (apiKey : Option String) (query : String)
    (hk : jsFalsyStr apiKey = false) :
    (∀ (status : Nat) (body : ResponseBody) (em : String),
      200 ≤ status ∧ status < 300 → body.parse = .error em →
      (searchMoviesHandler apiKey query (.response status body)).1 =
        ⟨⟨query, [], some ("Unable to fetch movie results right now: " ++ em)⟩,
          "Movie search failed due to a network or parsing error."⟩) ∧
    (∀ em : String, (searchMoviesHandler apiKey query (.thrown (some em))).1 =
        ⟨⟨query, [], some ("Unable to fetch movie results right now: " ++ em)⟩,
          "Movie search failed due to a network or parsing error."⟩) ∧
    ((searchMoviesHandler apiKey query (.thrown none)).1 =
        ⟨⟨query, [], some "Unable to fetch movie results right now: Unknown network error"⟩,
          "Movie search failed due to a network or parsing error."⟩) ∧
    ("Movie search failed due to a network or parsing error." ≠
      "Movie search failed due to an external API error.") := by
  refine ⟨?_, ?_, ?_, by decide⟩
  · intro status body em hs hp
    rw [handler_parse_error apiKey query status body em hk hs hp]
  · intro em
    rw [handler_thrown apiKey query (some em) hk]
    rfl
  · rw [handler_thrown apiKey query none hk]
    have he : ("Unable to fetch movie results right now: " ++
        ((none : Option String).getD "Unknown network error")) =
        "Unable to fetch movie results right now: Unknown network error" := by decide
    rw [he]

/-- C5 witness: a Zod/JSON parse failure on a 200 response and a rejected
fetch with a non-Error thrown value. -/
theorem claim5_witness :
    (searchMoviesHandler (some "key") "q"
      (.response 200 ⟨.error "Unexpected token", .parsed none⟩)).1 =
      ⟨⟨"q", [], some "Unable to fetch movie results right now: Unexpected token"⟩,
        "Movie search failed due to a network or parsing error."⟩ ∧
    (searchMoviesHandler (some "key") "q" (.thrown none)).1 =
      ⟨⟨"q", [], some "Unable to fetch movie results right now: Unknown network error"⟩,
        "Movie search failed due to a network or parsing error."⟩ := by
  have h := claim5_network_parse (some "key") "q" (by decide)
  exact ⟨(h.1 200 _ "Unexpected token" (by norm_num) rfl).trans (by decide), h.2.2.1⟩

/-- C6: every upstream response containing 3 or more well-formed results
yields an outcome with no error field, exactly 3 movies, and the text
summary "Found 3 movie result(s) for \"<query>\"." -/
theorem claim6_success_three (apiKey : Option String) (query : String) (status : Nat)
    (body : ResponseBody) (payload : TmdbSearchResponse)
    (hk : jsFalsyStr apiKey = false) (hs : 200 ≤ status ∧ status < 300)
    (hp : body.parse = .ok payload) (hlen : 3 ≤ payload.results.length) :
    (searchMoviesHandler apiKey query (.response status body)).1.props.error = none ∧
    (searchMoviesHandler apiKey query (.response status body)).1.props.movies.length = 3 ∧
    (searchMoviesHandler apiKey query (.response status body)).1.message =
      "Found 3 movie result(s) for \"" ++ query ++ "\"." := by
  have hres : payload.results ≠ [] := by
    intro h
    rw [h] at hlen
    simp at hlen
  rw [handler_ok_results apiKey query status body payload hk hs hp hres]
  have hml : ((payload.results.take 3).map mapTmdbMovieToCard).length = 3 := by
    rw [List.length_map, List.length_take]
    omega
  refine ⟨rfl, hml, ?_⟩
  rw [hml]
  have h3 : ("Found " ++ toString (3:ℕ)) ++ " movie result(s) for \"" =
      "Found 3 movie result(s) for \"" := by decide
  rw [h3]

/-- C6 witness: four upstream results at query "star". -/
theorem claim6_witness :
    (searchMoviesHandler (some "key") "star"
      (.response 200 ⟨.ok ⟨[sampleMovieA, sampleMovieB, sampleMovieC, sampleMovieD]⟩,
        .parsed none⟩)).1.props.error = none ∧
    (searchMoviesHandler (some "key") "star"
      (.response 200 ⟨.ok ⟨[sampleMovieA, sampleMovieB, sampleMovieC, sampleMovieD]⟩,
        .parsed none⟩)).1.props.movies.length = 3 ∧
    (searchMoviesHandler (some "key") "star"
      (.response 200 ⟨.ok ⟨[sampleMovieA, sampleMovieB, sampleMovieC, sampleMovieD]⟩,
        .parsed none⟩)).1.message = "Found 3 movie result(s) for \"star\"." := by
  have h := claim6_success_three (some "key") "star" 200
    ⟨.ok ⟨[sampleMovieA, sampleMovieB, sampleMovieC, sampleMovieD]⟩, .parsed none⟩
    ⟨[sampleMovieA, sampleMovieB, sampleMovieC, sampleMovieD]⟩
    (by decide) (by norm_num) rfl (by decide)
  exact ⟨h.1, h.2.1, h.2.2.trans (by decide)⟩

/-- C10: for every invocation and upstream behaviour, the structured
payload includes an error field if and only if its movies array is
empty; the widget's no-error-and-no-movies state is never produced. -/
theorem claim10_error_iff_no_movies (apiKey : Option String) (query : String)
    (net : FetchResult) :
    (searchMoviesHandler apiKey query net).1.props.error.isSome = true ↔
      (searchMoviesHandler apiKey query net).1.props.movies = [] := by
  by_cases hk : jsFalsyStr apiKey = true
  · rw [handler_missing_key apiKey query net hk]
    simp
  · simp only [Bool.not_eq_true] at hk
    cases net with
    | thrown msg =>
      rw [handler_thrown apiKey query msg hk]
      simp
    | response status body =>
      by_cases hs : 200 ≤ status ∧ status < 300
      · cases hparse : body.parse with
        | error em =>
          rw [handler_parse_error apiKey query status body em hk hs hparse]
          simp
        | ok payload =>
          by_cases hres : payload.results = []
          · rw [handler_ok_empty apiKey query status body payload hk hs hparse hres]
            simp
          · rw [handler_ok_results apiKey query status body payload hk hs hparse hres]
            simp [hres]
      · rw [handler_http_fail apiKey query status body hk hs]
        simp
